import Mathlib

/-!
Shallow embedding of the image-detection tally backend.

The repository contains two revisions of the same Vercel serverless handler:

* `src/api/process-image.js` — the current revision, embedded below in
  namespace `ProcImage.V2`: a 22-class vocabulary (`TARGET_CLASSES`),
  extraction of the prediction list from an array of wrapper objects, and a
  real Google-Sheets write whose outcome is classified into
  missing-credential / permission-failure / generic-failure / success
  statuses inside `appendDataToGoogleSheet`.

* `src/unnamed/part_000` — an earlier revision, embedded in namespace
  `ProcImage.V1`: extraction via the top-level `predictions` /
  `detections` fields, hard-coded walnut/almond counting, and a mocked
  sheet write that always reports `Success`.

Side-effecting collaborators are modelled as explicit inputs: the
inference result is an `Except` value (error = the adapter threw), the
timestamp `new Date().toISOString()` is a string parameter, the
credential environment variable is an `Option String`, and the behaviour
of the Google Sheets append call (everything that can happen inside the
`try` block of the current revision) is a `WriteOutcome` oracle.
JavaScript field absence (`undefined`) is modelled by `Option`, and the
JavaScript truthiness tests of the source (`d.class || d.label`,
`!CREDENTIALS_JSON`, `!base64Image`, `!roboflowResults`) are translated
by their semantics on the types involved (a string is falsy exactly when
it is empty; `none` is falsy).
-/

namespace ProcImage

/-- One detection record as the counting logic sees it: only the `class`
and `label` fields are ever read by the aggregation code (`confidence` is
never consulted, so it is not modelled).  `none` models an absent field. -/
structure Det where
  cls : Option String
  label : Option String
  deriving DecidableEq

/-- The value found under a wrapper object's truthy `predictions` field:
either its own `predictions` sub-field is an array of detections
(`arrayOf`) or it is not an array (`nonArray`). -/
inductive NestedPreds where
  | nonArray
  | arrayOf (l : List Det)
  deriving DecidableEq

/-- One element of a top-level Roboflow workflow result array.  `nullish`
is a falsy element (fails the `result &&` test); `objWith none` is a
truthy element whose `predictions` field is absent or falsy; `objWith
(some np)` carries a truthy `predictions` field. -/
inductive RawWrapper where
  | nullish
  | objWith (preds : Option NestedPreds)
  deriving DecidableEq

/-- A raw inference result (the provider-shaped payload).  `nullv` is any
falsy value (null/undefined); `arr` is a top-level array of wrappers;
`objTop p d` is any non-array truthy value, recording whether its
`predictions` and `detections` fields hold detection arrays (`none`
models an absent field; note a present empty array is `some []`, which is
truthy in JavaScript). -/
inductive Raw where
  | nullv
  | arr (ws : List RawWrapper)
  | objTop (predictions : Option (List Det)) (detections : Option (List Det))
  deriving DecidableEq

/-- One cell of the data row appended to the sheet: a string (timestamp,
file name) or an integer count. -/
inductive Cell where
  | str (s : String)
  | num (n : Nat)
  deriving DecidableEq

/-- A Google API error as the `catch` block of the current revision sees
it: an optional numeric `code` (absent for e.g. a `TypeError` thrown
before the API call) and a `message` string. -/
structure GoogleError where
  code : Option Nat
  message : String
  deriving DecidableEq

/-- Behaviour of everything inside the `try` block of the current
revision's `appendDataToGoogleSheet` (credential parsing, auth setup and
the `spreadsheets.values.append` call): either it completes, or it
throws a `GoogleError` which the `catch` block receives. -/
inductive WriteOutcome where
  | ok
  | err (e : GoogleError)
  deriving DecidableEq

namespace V2

/-- `TARGET_CLASSES` of `src/api/process-image.js` (lines 13-36). -/
def TARGET_CLASSES : List String :=
  ["belt_buckle",
   "bitline_gap_available",
   "bitline_gap_not_available",
   "deep_hoggering",
   "feature_line_not_okay",
   "feature_line_okay",
   "finising_no_okay",
   "finising_okay",
   "foam_visible",
   "J_strip_lock_issue",
   "marking_present",
   "missing_part",
   "no_missing_part",
   "part_gap",
   "scratch_marks",
   "seam_uneven",
   "side_cover",
   "stain_marks",
   "stitch_open",
   "towel_bar",
   "track_cover",
   "wrinkle"]

/-- The test on one wrapper performed at line 124 of
`src/api/process-image.js`: `result && result.predictions &&
Array.isArray(result.predictions.predictions)`; `some l` when it passes,
with `l` the nested array. -/
def nestedList : RawWrapper → Option (List Det)
  | RawWrapper.objWith (some (NestedPreds.arrayOf l)) => some l
  | _ => none

/-- The `for (const result of roboflowResults)` loop of lines 122-129:
take the nested list of the first wrapper that passes the test and
`break`; if none passes, `predictions` keeps its initial value `[]`. -/
def findPredictions : List RawWrapper → List Det
  | [] => []
  | w :: rest =>
    match nestedList w with
    | some l => l
    | none => findPredictions rest

/-- The extraction sub-step, lines 113-132 of `src/api/process-image.js`:
`predictions` starts as `[]`; only when `Array.isArray(roboflowResults)`
does the wrapper scan run; a non-array input leaves `predictions = []`
(only a `console.error` is emitted — no exception). -/
def extractPredictions : Raw → List Det
  | Raw.arr ws => findPredictions ws
  | _ => []

/-- Line 148: `const label = d.class || d.label`.  `d.class` is used when
it is truthy (a non-empty string); otherwise the expression evaluates to
`d.label` whatever it is (possibly absent). -/
def getLabel (d : Det) : Option String :=
  match d.cls with
  | some s => if s = "" then d.label else some s
  | none => d.label

/-- One iteration of the counting loop, lines 146-153: increment
`classCounts[label]` when the label is a member of `TARGET_CLASSES`
(the vocabulary is a parameter here), and always increment
`totalDetections`. -/
def tallyStep (voc : List String) (acc : (String → Nat) × Nat) (d : Det) :
    (String → Nat) × Nat :=
  let counts :=
    match getLabel d with
    | some l => if l ∈ voc then Function.update acc.1 l (acc.1 l + 1) else acc.1
    | none => acc.1
  (counts, acc.2 + 1)

/-- The whole counting sub-step: `classCounts` initialised to `0` on
every vocabulary entry, then the loop over `predictions`. -/
def tally (voc : List String) (preds : List Det) : (String → Nat) × Nat :=
  preds.foldl (tallyStep voc) (fun _ => 0, 0)

/-- Row assembly, lines 156-161: `[timestamp, fileName,
...TARGET_CLASSES.map(c => classCounts[c]), totalDetections]`, stated for
an arbitrary vocabulary in place of `TARGET_CLASSES`. -/
def makeDataRow (voc : List String) (counts : String → Nat) (total : Nat)
    (ts fileName : String) : List Cell :=
  Cell.str ts :: Cell.str fileName ::
    (voc.map fun c => Cell.num (counts c)) ++ [Cell.num total]

/-- Status string of the early return at line 173. -/
def missingKeyStatus : String := "Failed to Authenticate (Missing Key)"

/-- Status string set at line 202 on a successful append. -/
def successStatus : String := "Success (Wrote to Sheet via Google API)"

/-- Status string of the permission branch, line 209 (`error.code === 400
|| error.code === 403`). -/
def permissionStatus : String :=
  "Failed to Write: Permission or Range error. Check if Service Account email has Editor access and if Sheet1 exists."

/-- `error.message.substring(0, 50)` — the first 50 characters of the
message (modelled on the character list of the string). -/
def truncate50 (m : String) : String := String.mk (m.toList.take 50)

/-- Status string of the generic branch, line 211: the truncated message
embedded in a fixed template. -/
def genericFailureStatus (m : String) : String :=
  "Failed to Write: " ++ truncate50 m ++ "... (API Failure)"

/-- The classification performed by the `try`/`catch` of lines 176-213:
success, or the permission string for codes 400/403, or the generic
truncated string. -/
def classifyWrite : WriteOutcome → String
  | WriteOutcome.ok => successStatus
  | WriteOutcome.err e =>
    if e.code = some 400 ∨ e.code = some 403 then permissionStatus
    else genericFailureStatus e.message

/-- The structured value returned by the current revision's
`appendDataToGoogleSheet` (both the early missing-credential return at
line 173 and the final return at lines 216-221). -/
structure AppendRes where
  status : String
  row_data : List Cell
  class_counts : List (String × Nat)
  total_count : Nat
  deriving DecidableEq

/-- `!CREDENTIALS_JSON` — the credential environment variable is falsy
when unset or the empty string. -/
def credsMissing : Option String → Bool
  | none => true
  | some s => s = ""

/-- `appendDataToGoogleSheet` of `src/api/process-image.js` (lines
106-222): extraction, counting, row assembly, then either the
missing-credential early return or the sheet write attempt whose
`try`/`catch` classifies the outcome.  The function never throws: every
path returns an `AppendRes`. -/
def appendDataToGoogleSheet (creds : Option String) (write : WriteOutcome)
    (roboflowResults : Raw) (fileName ts : String) : AppendRes :=
  let predictions := extractPredictions roboflowResults
  let t := tally TARGET_CLASSES predictions
  let dataRow := makeDataRow TARGET_CLASSES t.1 t.2 ts fileName
  let ccList := TARGET_CLASSES.map fun c => (c, t.1 c)
  if credsMissing creds then
    { status := missingKeyStatus, row_data := dataRow,
      class_counts := ccList, total_count := t.2 }
  else
    { status := classifyWrite write, row_data := dataRow,
      class_counts := ccList, total_count := t.2 }

/-- The HTTP response of the current revision's `handler`. -/
inductive HResponse where
  | methodNotAllowed (msg : String)
  | badRequest (msg : String)
  | completed (body : AppendRes)
  | serverError (msg : String)
  deriving DecidableEq

/-- The numeric status code attached to each response shape. -/
def HResponse.statusCode : HResponse → Nat
  | HResponse.methodNotAllowed _ => 405
  | HResponse.badRequest _ => 400
  | HResponse.completed _ => 200
  | HResponse.serverError _ => 500

/-- `handler` of `src/api/process-image.js` (lines 226-269): 405 on a
non-POST method, 400 on absent/empty image data, 500 when
`runRoboflowInference` throws (modelled as `Except.error`), otherwise 200
carrying the `appendDataToGoogleSheet` result (`appendDataToGoogleSheet`
never throws, so the `catch` is reached only via the inference call). -/
def handler (method : String) (image : Option String) (fileName : String)
    (infer : Except String Raw) (creds : Option String) (write : WriteOutcome)
    (ts : String) : HResponse :=
  if method ≠ "POST" then
    HResponse.methodNotAllowed ("Method " ++ method ++ " not allowed")
  else
    match image with
    | none => HResponse.badRequest "No image data provided in request body."
    | some img =>
      if img = "" then HResponse.badRequest "No image data provided in request body."
      else
        match infer with
        | Except.error msg => HResponse.serverError ("Internal server error: " ++ msg)
        | Except.ok raw =>
          HResponse.completed (appendDataToGoogleSheet creds write raw fileName ts)

end V2

namespace V1

/-- Line 81 of `src/unnamed/part_000`:
`roboflowResults.predictions || roboflowResults.detections || []`.
A present array — even an empty one — is truthy, so a present
`predictions` field wins over `detections`.  On a top-level array both
property reads yield `undefined`, giving `[]`.  (A falsy `roboflowResults`
would throw on the property access; `appendDataToGoogleSheet` below keeps
that case out of this function.) -/
def extractPredictions : Raw → List Det
  | Raw.objTop (some l) _ => l
  | Raw.objTop none (some l) => l
  | _ => []

/-- Lines 84-86: `predictions.filter(d => d.label === 'walnut').length`
etc.  Strict equality against an absent field is false. -/
def labelCount (preds : List Det) (target : String) : Nat :=
  (preds.filter fun d => d.label = some target).length

/-- Lines 89-95: the five-cell data row
`[timestamp, fileName, walnutCount, almondCount, totalDetections]`. -/
def makeDataRow (preds : List Det) (ts fileName : String) : List Cell :=
  [Cell.str ts, Cell.str fileName,
   Cell.num (labelCount preds "walnut"),
   Cell.num (labelCount preds "almond"),
   Cell.num preds.length]

/-- The structured value returned by the earlier revision's
`appendDataToGoogleSheet` (lines 99-102): only a status and the row. -/
structure AppendRes where
  status : String
  row_data : List Cell
  deriving DecidableEq

/-- `appendDataToGoogleSheet` of `src/unnamed/part_000` (lines 77-103):
no credential parameter, no external write — it counts, builds the row,
and returns `status: 'Success'` unconditionally.  The only way it can
fail is the property access `roboflowResults.predictions` throwing a
`TypeError` on a falsy argument, modelled as `Except.error`. -/
def appendDataToGoogleSheet (roboflowResults : Raw) (fileName ts : String) :
    Except Unit AppendRes :=
  match roboflowResults with
  | Raw.nullv => Except.error ()
  | raw =>
    let predictions := extractPredictions raw
    Except.ok { status := "Success", row_data := makeDataRow predictions ts fileName }

/-- The HTTP response of the earlier revision's `handler`. -/
inductive HResponse where
  | methodNotAllowed (msg : String)
  | badRequest (msg : String)
  | completed (body : AppendRes)
  | serverError (msg : String)
  deriving DecidableEq

/-- The numeric status code attached to each response shape. -/
def HResponse.statusCode : HResponse → Nat
  | HResponse.methodNotAllowed _ => 405
  | HResponse.badRequest _ => 400
  | HResponse.completed _ => 200
  | HResponse.serverError _ => 500

/-- `handler` of `src/unnamed/part_000` (lines 107-161): 405 on a
non-POST method, 400 on absent/empty image data, 500 when the inference
call throws, 500 with "Empty response received from Roboflow." when the
inference result is falsy (lines 134-136), otherwise the sheet append —
whose own exception, if any, the surrounding `try` would also turn into a
500 — and a 200 response. -/
def handler (method : String) (image : Option String) (fileName : String)
    (infer : Except String Raw) (ts : String) : HResponse :=
  if method ≠ "POST" then
    HResponse.methodNotAllowed ("Method " ++ method ++ " not allowed")
  else
    match image with
    | none => HResponse.badRequest "No image data provided."
    | some img =>
      if img = "" then HResponse.badRequest "No image data provided."
      else
        match infer with
        | Except.error msg => HResponse.serverError ("Internal server error: " ++ msg)
        | Except.ok Raw.nullv => HResponse.serverError "Empty response received from Roboflow."
        | Except.ok raw =>
          match appendDataToGoogleSheet raw fileName ts with
          | Except.ok body => HResponse.completed body
          | Except.error _ => HResponse.serverError "Internal server error: TypeError"

end V1

/-- A raw result offering no shape the current revision's extraction
recognises: either it is not an array at all, or it is an array none of
whose wrappers passes the nested-list test. -/
def noArrayMatch : Raw → Prop
  | Raw.arr ws => ∀ w ∈ ws, V2.nestedList w = none
  | _ => True

/-! ### Helper lemmas -/

/-- Wrappers that fail the shape test are skipped by the scan. -/
theorem findPredictions_append_of_none (ws1 ws2 : List RawWrapper)
    (h : ∀ w ∈ ws1, V2.nestedList w = none) :
    V2.findPredictions (ws1 ++ ws2) = V2.findPredictions ws2 := by
  induction ws1 with
  | nil => rfl
  | cons w rest ih =>
    have hw : V2.nestedList w = none := h w (List.mem_cons_self _ _)
    have hrest : ∀ w' ∈ rest, V2.nestedList w' = none :=
      fun w' hw' => h w' (List.mem_cons_of_mem _ hw')
    simpa [V2.findPredictions, hw] using ih hrest

/-- The scan stops at the first wrapper passing the shape test and
returns exactly its nested list. -/
theorem extract_first_match (ws1 : List RawWrapper) (w : RawWrapper)
    (l : List Det) (ws2 : List RawWrapper)
    (h1 : ∀ w' ∈ ws1, V2.nestedList w' = none)
    (h2 : V2.nestedList w = some l) :
    V2.extractPredictions (Raw.arr (ws1 ++ w :: ws2)) = l := by
  show V2.findPredictions (ws1 ++ w :: ws2) = l
  rw [findPredictions_append_of_none ws1 (w :: ws2) h1]
  simp [V2.findPredictions, h2]

/-- Incrementing the counter of one vocabulary member raises the sum of
the counters over a duplicate-free vocabulary by exactly one. -/
theorem sum_map_update (voc : List String) (f : String → Nat) (l : String)
    (hnd : voc.Nodup) (hl : l ∈ voc) :
    (voc.map (Function.update f l (f l + 1))).sum = (voc.map f).sum + 1 := by
  induction voc with
  | nil => simp at hl
  | cons c rest ih =>
    rcases List.mem_cons.mp hl with hc | hc
    · subst hc
      have hnotin : l ∉ rest := (List.nodup_cons.mp hnd).1
      have hmap : rest.map (Function.update f l (f l + 1)) = rest.map f := by
        apply List.map_congr_left
        intro x hx
        apply Function.update_noteq
        intro hxl
        exact hnotin (hxl ▸ hx)
      simp only [List.map_cons, List.sum_cons, hmap, Function.update_same]
      omega
    · have hlc : l ≠ c := by
        intro h
        exact (List.nodup_cons.mp hnd).1 (h ▸ hc)
      have hrest := ih (List.nodup_cons.mp hnd).2 hc
      simp only [List.map_cons, List.sum_cons,
        Function.update_noteq (Ne.symm hlc), hrest]
      omega

/-- The running total after the counting loop is the initial total plus
the number of detections processed. -/
theorem tally_foldl_total (voc : List String) (preds : List Det)
    (f : String → Nat) (t : Nat) :
    (preds.foldl (V2.tallyStep voc) (f, t)).2 = t + preds.length := by
  induction preds generalizing f t with
  | nil => simp
  | cons d rest ih =>
    rw [List.foldl_cons]
    have hstep : V2.tallyStep voc (f, t) d =
        ((V2.tallyStep voc (f, t) d).1, t + 1) := rfl
    rw [hstep, ih]
    simp
    omega

/-- Each loop iteration raises the sum of the vocabulary counters by at
most one, so the final sum is bounded by the initial sum plus the number
of detections processed. -/
theorem tally_foldl_sum_le (voc : List String) (hnd : voc.Nodup)
    (preds : List Det) (f : String → Nat) (t : Nat) :
    (voc.map (preds.foldl (V2.tallyStep voc) (f, t)).1).sum ≤
      (voc.map f).sum + preds.length := by
  induction preds generalizing f t with
  | nil => simp
  | cons d rest ih =>
    rw [List.foldl_cons]
    cases hl : V2.getLabel d with
    | none =>
      have hstep : V2.tallyStep voc (f, t) d = (f, t + 1) := by
        simp [V2.tallyStep, hl]
      rw [hstep]
      have := ih f (t + 1)
      simp only [List.length_cons]
      omega
    | some l =>
      by_cases hmem : l ∈ voc
      · have hstep : V2.tallyStep voc (f, t) d =
            (Function.update f l (f l + 1), t + 1) := by
          simp [V2.tallyStep, hl, hmem]
        rw [hstep]
        have h1 := ih (Function.update f l (f l + 1)) (t + 1)
        rw [sum_map_update voc f l hnd hmem] at h1
        simp only [List.length_cons]
        omega
      · have hstep : V2.tallyStep voc (f, t) d = (f, t + 1) := by
          simp [V2.tallyStep, hl, hmem]
        rw [hstep]
        have := ih f (t + 1)
        simp only [List.length_cons]
        omega

/-- The two hard-coded label filters of the earlier revision are mutually
exclusive, so their counts sum to at most the list length. -/
theorem labelCount_pair_le (preds : List Det) :
    V1.labelCount preds "walnut" + V1.labelCount preds "almond" ≤ preds.length := by
  induction preds with
  | nil => simp [V1.labelCount]
  | cons d rest ih =>
    by_cases h1 : d.label = some "walnut"
    · have h2 : ¬ d.label = some "almond" := by
        rw [h1]
        intro h
        exact absurd (Option.some.inj h) (by decide)
      simp [V1.labelCount, List.filter_cons, h1, h2] at *
      omega
    · by_cases h2 : d.label = some "almond"
      · simp [V1.labelCount, List.filter_cons, h1, h2] at *
        omega
      · simp [V1.labelCount, List.filter_cons, h1, h2] at *
        omega

/-- The 22-entry vocabulary of the current revision has no duplicate
labels. -/
theorem TARGET_CLASSES_nodup : V2.TARGET_CLASSES.Nodup := by decide

/-- The total computed by the counting sub-step equals the length of the
prediction list it was run on. -/
theorem tally_total_eq (voc : List String) (preds : List Det) :
    (V2.tally voc preds).2 = preds.length := by
  show (preds.foldl (V2.tallyStep voc) (fun _ => 0, 0)).2 = preds.length
  simpa using tally_foldl_total voc preds (fun _ => 0) 0

/-- Over a duplicate-free vocabulary, the per-class counters sum to at
most the total. -/
theorem tally_sum_le_total (voc : List String) (hnd : voc.Nodup)
    (preds : List Det) :
    (voc.map (V2.tally voc preds).1).sum ≤ (V2.tally voc preds).2 := by
  have h1 := tally_foldl_sum_le voc hnd preds (fun _ => 0) 0
  have h0 : (voc.map fun _ => (0 : Nat)).sum = 0 := by simp
  rw [tally_total_eq]
  show (voc.map (preds.foldl (V2.tallyStep voc) (fun _ => 0, 0)).1).sum ≤ preds.length
  omega

/-- The assembled row always has `2 + |voc| + 1` cells. -/
theorem makeDataRow_length (voc : List String) (counts : String → Nat)
    (total : Nat) (ts fn : String) :
    (V2.makeDataRow voc counts total ts fn).length = 3 + voc.length := by
  simp [V2.makeDataRow]
  omega

/-- Whatever the credential and write outcome, the current revision's
append step carries the assembled row in its result. -/
theorem appendDataToGoogleSheet_row (creds : Option String)
    (write : WriteOutcome) (raw : Raw) (fn ts : String) :
    (V2.appendDataToGoogleSheet creds write raw fn ts).row_data =
      V2.makeDataRow V2.TARGET_CLASSES
        (V2.tally V2.TARGET_CLASSES (V2.extractPredictions raw)).1
        (V2.tally V2.TARGET_CLASSES (V2.extractPredictions raw)).2 ts fn := by
  cases hc : V2.credsMissing creds <;>
    simp [V2.appendDataToGoogleSheet, hc]

/-- Whatever the credential and write outcome, the current revision's
append step reports the computed total. -/
theorem appendDataToGoogleSheet_total (creds : Option String)
    (write : WriteOutcome) (raw : Raw) (fn ts : String) :
    (V2.appendDataToGoogleSheet creds write raw fn ts).total_count =
      (V2.extractPredictions raw).length := by
  cases hc : V2.credsMissing creds <;>
    simp [V2.appendDataToGoogleSheet, hc, tally_total_eq]

/-- The truncated message is at most 50 characters. -/
theorem truncate50_length_le (m : String) : (V2.truncate50 m).length ≤ 50 :=
  List.length_take_le 50 m.toList

/-- A generic write-failure status never exceeds 84 characters. -/
theorem genericFailureStatus_length_le (m : String) :
    (V2.genericFailureStatus m).length ≤ 84 := by
  have h1 := truncate50_length_le m
  have h2 : (V2.genericFailureStatus m).length =
      17 + (V2.truncate50 m).length + 17 := by
    have hA : "Failed to Write: ".length = 17 := rfl
    have hB : "... (API Failure)".length = 17 := rfl
    simp [V2.genericFailureStatus, String.length_append, hA, hB]
  omega

/-- The fixed permission status is 114 characters long. -/
theorem permissionStatus_length : V2.permissionStatus.length = 114 := rfl

/-- The fixed permission status can never coincide with a generic
write-failure status, whatever the underlying error message. -/
theorem permissionStatus_ne_generic (m : String) :
    V2.permissionStatus ≠ V2.genericFailureStatus m := by
  intro h
  have hlen := congrArg String.length h
  rw [permissionStatus_length] at hlen
  have h84 := genericFailureStatus_length_le m
  omega

/-! ### Claim theorems -/

/-- Claim C1, counterexample: the claim asserts extraction first tries a
top-level field holding the detection list directly.  On a non-array
raw result whose `predictions` field holds a one-element detection list,
the current revision's extraction nevertheless yields the empty list —
the top-level-field shape is not implemented there. -/
theorem c1_counterexample_top_level_field :
    V2.extractPredictions
      (Raw.objTop (some [{ cls := some "belt_buckle", label := none }]) none) = [] ∧
    ([] : List Det) ≠ [{ cls := some "belt_buckle", label := none }] := by
  exact ⟨rfl, by decide⟩

/-- Claim C1 (amended): the current revision's extraction recognises
only the array-of-wrappers shape, scanned in order for the first wrapper
whose nested field holds a list; any input offering no such shape —
including every non-array input, hence also a top-level field holding the
list directly — yields the empty prediction list, and extraction is a
total function (no error is signalled). -/
theorem c1_extraction_amended :
    (∀ raw : Raw, noArrayMatch raw → V2.extractPredictions raw = []) ∧
    (∀ (ws1 : List RawWrapper) (w : RawWrapper) (l : List Det)
       (ws2 : List RawWrapper),
      (∀ w' ∈ ws1, V2.nestedList w' = none) → V2.nestedList w = some l →
      V2.extractPredictions (Raw.arr (ws1 ++ w :: ws2)) = l) := by
  constructor
  · intro raw h
    cases raw with
    | nullv => rfl
    | objTop p d => rfl
    | arr ws =>
      show V2.findPredictions ws = []
      have := findPredictions_append_of_none ws [] h
      simpa using this
  · intro ws1 w l ws2 h1 h2
    exact extract_first_match ws1 w l ws2 h1 h2

/-- Claim C1 witness for the amended theorem: a one-wrapper array whose
wrapper fails the shape test extracts to the empty list. -/
theorem c1_extraction_amended_witness :
    V2.extractPredictions (Raw.arr [RawWrapper.nullish]) = [] :=
  c1_extraction_amended.1 (Raw.arr [RawWrapper.nullish])
    (by simp [noArrayMatch, V2.nestedList])

/-- Claim C2 (confirmed): on an array of wrappers, extraction returns
exactly the nested list of the first wrapper whose nested field holds a
non-absent list, for every choice of later wrappers — nothing after the
first match is merged in. -/
theorem c2_first_wrapper_unmerged (ws1 : List RawWrapper) (w : RawWrapper)
    (l : List Det) (ws2 : List RawWrapper)
    (h1 : ∀ w' ∈ ws1, V2.nestedList w' = none)
    (h2 : V2.nestedList w = some l) :
    V2.extractPredictions (Raw.arr (ws1 ++ w :: ws2)) = l :=
  extract_first_match ws1 w l ws2 h1 h2

/-- Claim C2 witness: with two wrappers both holding nested lists, only
the first wrapper's list is returned. -/
theorem c2_first_wrapper_unmerged_witness :
    V2.extractPredictions
      (Raw.arr ([] ++
        RawWrapper.objWith (some (NestedPreds.arrayOf
          [{ cls := some "side_cover", label := none }])) ::
        [RawWrapper.objWith (some (NestedPreds.arrayOf
          [{ cls := some "belt_buckle", label := none },
           { cls := some "wrinkle", label := none }]))])) =
      [{ cls := some "side_cover", label := none }] :=
  c2_first_wrapper_unmerged []
    (RawWrapper.objWith (some (NestedPreds.arrayOf
      [{ cls := some "side_cover", label := none }])))
    [{ cls := some "side_cover", label := none }]
    [RawWrapper.objWith (some (NestedPreds.arrayOf
      [{ cls := some "belt_buckle", label := none },
       { cls := some "wrinkle", label := none }]))]
    (by intro w' hw'; exact absurd hw' (List.not_mem_nil _)) rfl

/-- Claim C3 (confirmed): in the current revision the per-vocabulary
counts summed over `TARGET_CLASSES` never exceed the total, and the
total equals the length of the extracted detection list; in the earlier
revision the walnut and almond counts likewise sum to at most the
total, which is the extracted list's length by construction. -/
theorem c3_counts_sum_le_total :
    (∀ raw : Raw,
      (V2.TARGET_CLASSES.map
          (V2.tally V2.TARGET_CLASSES (V2.extractPredictions raw)).1).sum ≤
        (V2.tally V2.TARGET_CLASSES (V2.extractPredictions raw)).2 ∧
      (V2.tally V2.TARGET_CLASSES (V2.extractPredictions raw)).2 =
        (V2.extractPredictions raw).length) ∧
    (∀ preds : List Det,
      V1.labelCount preds "walnut" + V1.labelCount preds "almond" ≤
        preds.length) := by
  constructor
  · intro raw
    exact ⟨tally_sum_le_total V2.TARGET_CLASSES TARGET_CLASSES_nodup _,
      tally_total_eq V2.TARGET_CLASSES _⟩
  · exact labelCount_pair_le

/-- Claim C4 (confirmed): the row assembled by the current revision has
`3 + k` cells for every vocabulary of size `k` (timestamp, file name,
one count per vocabulary entry, total), the row carried by its append
result has `3 + 22` cells on every input, and the earlier revision's
hard-coded row has `3 + 2` cells. -/
theorem c4_row_length :
    (∀ (voc : List String) (counts : String → Nat) (total : Nat)
       (ts fn : String),
      (V2.makeDataRow voc counts total ts fn).length = 3 + voc.length) ∧
    (∀ (creds : Option String) (write : WriteOutcome) (raw : Raw)
       (fn ts : String),
      (V2.appendDataToGoogleSheet creds write raw fn ts).row_data.length =
        3 + V2.TARGET_CLASSES.length) ∧
    (∀ (preds : List Det) (ts fn : String),
      (V1.makeDataRow preds ts fn).length = 3 + 2) := by
  refine ⟨makeDataRow_length, ?_, ?_⟩
  · intro creds write raw fn ts
    rw [appendDataToGoogleSheet_row]
    exact makeDataRow_length V2.TARGET_CLASSES _ _ ts fn
  · intro preds ts fn
    rfl

/-- Claim C5, counterexample: the claim asserts the `class` field always
takes precedence over `label` when both are present.  On a record whose
`class` field is present but holds the empty string, the truthiness test
of `d.class || d.label` falls through to `label` instead. -/
theorem c5_counterexample_empty_class :
    V2.getLabel { cls := some "", label := some "belt_buckle" } =
      some "belt_buckle" ∧
    (some "belt_buckle" : Option String) ≠ some "" := by
  exact ⟨rfl, by decide⟩

/-- Claim C5 (amended): the counting sub-step reads the label via
`d.class || d.label`: the `class` field takes precedence whenever it is
present and non-empty; when `class` is absent or holds the empty string
(a falsy value), the `label` field is used, whether present or not. -/
theorem c5_label_precedence_amended (d : Det) :
    (∀ s : String, d.cls = some s → s ≠ "" → V2.getLabel d = some s) ∧
    ((d.cls = none ∨ d.cls = some "") → V2.getLabel d = d.label) := by
  constructor
  · intro s hs hne
    simp [V2.getLabel, hs, hne]
  · rintro (h | h) <;> simp [V2.getLabel, h]

/-- Claim C5 witness for the amended theorem: a non-empty `class` field
wins over a simultaneously present `label` field. -/
theorem c5_label_precedence_amended_witness :
    V2.getLabel { cls := some "side_cover", label := some "belt_buckle" } =
      some "side_cover" :=
  (c5_label_precedence_amended
    { cls := some "side_cover", label := some "belt_buckle" }).1
    "side_cover" rfl (by decide)

/-- Claim C6 (confirmed): with the store write credential absent, the
append step returns the Missing-Credential status paired with the fully
populated 25-cell row (no exception — the function is total), and the
handler turns that into a 200 response carrying the append result. -/
theorem c6_missing_credential (write : WriteOutcome) (raw : Raw)
    (fn ts img : String) (h : img ≠ "") :
    (V2.appendDataToGoogleSheet none write raw fn ts).status =
      V2.missingKeyStatus ∧
    (V2.appendDataToGoogleSheet none write raw fn ts).row_data.length =
      3 + V2.TARGET_CLASSES.length ∧
    V2.handler "POST" (some img) fn (Except.ok raw) none write ts =
      V2.HResponse.completed (V2.appendDataToGoogleSheet none write raw fn ts) ∧
    (V2.handler "POST" (some img) fn (Except.ok raw) none write ts).statusCode =
      200 := by
  have hs : (V2.appendDataToGoogleSheet none write raw fn ts).status =
      V2.missingKeyStatus := by
    simp [V2.appendDataToGoogleSheet, V2.credsMissing]
  have hrow : (V2.appendDataToGoogleSheet none write raw fn ts).row_data.length =
      3 + V2.TARGET_CLASSES.length := by
    rw [appendDataToGoogleSheet_row]
    exact makeDataRow_length V2.TARGET_CLASSES _ _ ts fn
  have hh : V2.handler "POST" (some img) fn (Except.ok raw) none write ts =
      V2.HResponse.completed (V2.appendDataToGoogleSheet none write raw fn ts) := by
    simp [V2.handler, h]
  refine ⟨hs, hrow, hh, ?_⟩
  rw [hh]
  rfl

/-- Claim C6 witness: concrete missing-credential request completing
with status code 200. -/
theorem c6_missing_credential_witness :
    (V2.handler "POST" (some "imagebytes") "f.jpg" (Except.ok Raw.nullv)
      none WriteOutcome.ok "t0").statusCode = 200 :=
  (c6_missing_credential WriteOutcome.ok Raw.nullv "f.jpg" "t0" "imagebytes"
    (by decide)).2.2.2

/-- Claim C7 (confirmed): when the store write throws, the append step
still returns (never rethrows) the populated row and computed total
alongside a Write-Failure status; a permission-class error (code 400 or
403) gets the fixed permission status — bounded by 120 characters
independently of the error message — which can never coincide with the
status produced for a generic write failure, itself the message
truncated to 50 characters inside a fixed template of at most 84
characters. -/
theorem c7_write_failure_classification (e : GoogleError) (raw : Raw)
    (fn ts creds : String) (hc : creds ≠ "") :
    (V2.appendDataToGoogleSheet (some creds) (WriteOutcome.err e) raw fn
        ts).row_data.length = 3 + V2.TARGET_CLASSES.length ∧
    (V2.appendDataToGoogleSheet (some creds) (WriteOutcome.err e) raw fn
        ts).total_count = (V2.extractPredictions raw).length ∧
    ((e.code = some 400 ∨ e.code = some 403) →
      (V2.appendDataToGoogleSheet (some creds) (WriteOutcome.err e) raw fn
          ts).status = V2.permissionStatus ∧
      V2.permissionStatus.length ≤ 120 ∧
      ∀ m : String, V2.permissionStatus ≠ V2.genericFailureStatus m) ∧
    (¬(e.code = some 400 ∨ e.code = some 403) →
      (V2.appendDataToGoogleSheet (some creds) (WriteOutcome.err e) raw fn
          ts).status = V2.genericFailureStatus e.message ∧
      (V2.genericFailureStatus e.message).length ≤ 84) := by
  have hcm : V2.credsMissing (some creds) = false := by
    simp [V2.credsMissing, hc]
  refine ⟨?_, appendDataToGoogleSheet_total _ _ _ _ _, ?_, ?_⟩
  · rw [appendDataToGoogleSheet_row]
    exact makeDataRow_length V2.TARGET_CLASSES _ _ ts fn
  · intro hcode
    refine ⟨?_, ?_, permissionStatus_ne_generic⟩
    · simp [V2.appendDataToGoogleSheet, hcm, V2.classifyWrite, hcode]
    · rw [permissionStatus_length]
      omega
  · intro hcode
    exact ⟨by simp [V2.appendDataToGoogleSheet, hcm, V2.classifyWrite, hcode],
      genericFailureStatus_length_le e.message⟩

/-- Claim C7 witness: a concrete 403 error is classified with the fixed
permission status. -/
theorem c7_write_failure_classification_witness :
    (V2.appendDataToGoogleSheet (some "cred")
      (WriteOutcome.err
        { code := some 403, message := "The caller does not have permission" })
      Raw.nullv "f.jpg" "t0").status = V2.permissionStatus :=
  ((c7_write_failure_classification
    { code := some 403, message := "The caller does not have permission" }
    Raw.nullv "f.jpg" "t0" "cred" (by decide)).2.2.1 (Or.inr rfl)).1

/-- Claim C9 (confirmed): appending a detection record carrying neither
a `class` nor a `label` field leaves every per-class counter unchanged
while incrementing the running total by one. -/
theorem c9_unlabeled_detection_counts (voc : List String)
    (preds : List Det) (d : Det) (h1 : d.cls = none) (h2 : d.label = none) :
    (∀ c : String,
      (V2.tally voc (preds ++ [d])).1 c = (V2.tally voc preds).1 c) ∧
    (V2.tally voc (preds ++ [d])).2 = (V2.tally voc preds).2 + 1 := by
  have hl : V2.getLabel d = none := by
    simp [V2.getLabel, h1, h2]
  have hfold : V2.tally voc (preds ++ [d]) =
      V2.tallyStep voc (V2.tally voc preds) d := by
    show (preds ++ [d]).foldl (V2.tallyStep voc) (fun _ => 0, 0) = _
    rw [List.foldl_append]
    rfl
  rw [hfold]
  constructor
  · intro c
    simp [V2.tallyStep, hl]
  · simp [V2.tallyStep]

/-- Claim C9 witness: one field-less record alone yields total 1 over
the 22-class vocabulary. -/
theorem c9_unlabeled_detection_counts_witness :
    (V2.tally V2.TARGET_CLASSES ([] ++ [{ cls := none, label := none }])).2 =
      (V2.tally V2.TARGET_CLASSES []).2 + 1 :=
  (c9_unlabeled_detection_counts V2.TARGET_CLASSES []
    { cls := none, label := none } rfl rfl).2

/-- Claim C10 (confirmed): the earlier revision's persistence sub-step
takes no credential and performs no external write; on every input it is
called with (its callers rule out a falsy result) it returns the constant
status `Success` paired with the assembled row, and every result it ever
returns has status `Success` — so Missing-Credential and Write-Failure
outcomes are unreachable in that revision. -/
theorem c10_v1_persistence_constant_success (fn ts : String) :
    (∀ raw : Raw, raw ≠ Raw.nullv →
      V1.appendDataToGoogleSheet raw fn ts =
        Except.ok { status := "Success",
                    row_data :=
                      V1.makeDataRow (V1.extractPredictions raw) ts fn }) ∧
    (∀ (raw : Raw) (r : V1.AppendRes),
      V1.appendDataToGoogleSheet raw fn ts = Except.ok r →
        r.status = "Success") := by
  have hfirst : ∀ raw : Raw, raw ≠ Raw.nullv →
      V1.appendDataToGoogleSheet raw fn ts =
        Except.ok { status := "Success",
                    row_data :=
                      V1.makeDataRow (V1.extractPredictions raw) ts fn } := by
    intro raw h
    cases raw with
    | nullv => exact absurd rfl h
    | arr ws => rfl
    | objTop p d => rfl
  refine ⟨hfirst, ?_⟩
  intro raw r hr
  by_cases h : raw = Raw.nullv
  · subst h
    exact absurd hr (by simp [V1.appendDataToGoogleSheet])
  · rw [hfirst raw h] at hr
    have hinj := Except.ok.inj hr
    rw [← hinj]

/-- Claim C10 witness: a concrete non-null raw result produces the
`Success` outcome with its row. -/
theorem c10_v1_persistence_constant_success_witness :
    V1.appendDataToGoogleSheet
      (Raw.objTop (some [{ cls := none, label := some "walnut" }]) none)
      "f.jpg" "t0" =
      Except.ok { status := "Success",
                  row_data := V1.makeDataRow
                    (V1.extractPredictions
                      (Raw.objTop (some [{ cls := none, label := some "walnut" }])
                        none)) "t0" "f.jpg" } :=
  (c10_v1_persistence_constant_success "f.jpg" "t0").1
    (Raw.objTop (some [{ cls := none, label := some "walnut" }]) none)
    (by decide)

/-- Claim C8, counterexample: the claim asserts 500 responses arise if
and only if the Inference Adapter raises.  In the earlier revision, a
POST with image data whose inference call completes normally with a
falsy (null) result — no error raised — is answered with a 500 ("Empty
response received from Roboflow"). -/
theorem c8_counterexample_null_inference :
    (V1.handler "POST" (some "imagebytes") "f.jpg" (Except.ok Raw.nullv)
        "t0").statusCode = 500 ∧
    (Except.ok Raw.nullv : Except String Raw).isOk = true := by
  exact ⟨rfl, rfl⟩

/-- Claim C8 (amended): in the current revision the handler returns 500
exactly when the request passes method and image validation and the
Inference Adapter raises — persistence failures and every other
condition never yield one; in the earlier revision the handler
additionally returns 500 when the adapter completes with a falsy (null)
result without raising. -/
theorem c8_status_500_iff :
    (∀ (method : String) (image : Option String) (fn : String)
       (infer : Except String Raw) (creds : Option String)
       (write : WriteOutcome) (ts : String),
      (V2.handler method image fn infer creds write ts).statusCode = 500 ↔
        method = "POST" ∧ (∃ img, image = some img ∧ img ≠ "") ∧
          ∃ e, infer = Except.error e) ∧
    (∀ (method : String) (image : Option String) (fn : String)
       (infer : Except String Raw) (ts : String),
      (V1.handler method image fn infer ts).statusCode = 500 ↔
        method = "POST" ∧ (∃ img, image = some img ∧ img ≠ "") ∧
          ((∃ e, infer = Except.error e) ∨ infer = Except.ok Raw.nullv)) := by
  constructor
  · intro method image fn infer creds write ts
    by_cases hm : method = "POST"
    · subst hm
      cases image with
      | none => simp [V2.handler, V2.HResponse.statusCode]
      | some img =>
        by_cases hi : img = ""
        · subst hi
          simp [V2.handler, V2.HResponse.statusCode]
        · cases infer with
          | error msg => simp [V2.handler, V2.HResponse.statusCode, hi]
          | ok raw => simp [V2.handler, V2.HResponse.statusCode, hi]
    · simp [V2.handler, V2.HResponse.statusCode, hm]
  · intro method image fn infer ts
    by_cases hm : method = "POST"
    · subst hm
      cases image with
      | none => simp [V1.handler, V1.HResponse.statusCode]
      | some img =>
        by_cases hi : img = ""
        · subst hi
          simp [V1.handler, V1.HResponse.statusCode]
        · cases infer with
          | error msg => simp [V1.handler, V1.HResponse.statusCode, hi]
          | ok raw =>
            cases raw with
            | nullv => simp [V1.handler, V1.HResponse.statusCode, hi]
            | arr ws =>
              simp [V1.handler, V1.HResponse.statusCode,
                V1.appendDataToGoogleSheet, hi]
            | objTop p d =>
              simp [V1.handler, V1.HResponse.statusCode,
                V1.appendDataToGoogleSheet, hi]
    · simp [V1.handler, V1.HResponse.statusCode, hm]

/-- Claim C8 witness for the amended theorem: a raising inference call
on a valid POST yields a 500 in the current revision. -/
theorem c8_status_500_iff_witness :
    (V2.handler "POST" (some "imagebytes") "f.jpg"
      (Except.error "Roboflow inference failed: fetch failed") none
      WriteOutcome.ok "t0").statusCode = 500 :=
  (c8_status_500_iff.1 "POST" (some "imagebytes") "f.jpg"
    (Except.error "Roboflow inference failed: fetch failed") none
    WriteOutcome.ok "t0").2
    ⟨rfl, ⟨"imagebytes", rfl, by decide⟩,
      ⟨"Roboflow inference failed: fetch failed", rfl⟩⟩

end ProcImage
